import Mathlib

/-!
Verification of the callback routing and external-query subsystem
(`SMTSolverCommand.cpp` / `UniversalCallback.h`) of the solidity frontend.

The C++ code is shallowly embedded: the process environment and filesystem
are explicit parameters, exceptions become an `Except` error channel that
the outer `catch (...)` of `SMTSolverCommand::solve` discharges, and the
observable effects of a `solve` call (returned result, filesystem after the
call, content of the query file at the moment the child process is spawned)
are collected in a record.
-/

namespace Solidity

/-- Type `ReadCallback::Result` from ReadCallback.h: success flag plus payload
string. -/
structure Result where
  success : Bool
  data : String
deriving DecidableEq, Repr

/-- Type `ReadCallback::Kind`: the closed enumeration of request kinds. -/
inductive Kind where
  | ReadFile
  | SMTQuery
deriving DecidableEq, Repr

/-- Modelled from the spec: `ReadCallback::kindString` (declared in
ReadCallback.h, which is not part of the sources here) maps each kind to its
canonical string identifier; the spec requires the identifiers to round-trip
exactly, hence to be distinct. -/
def kindString : Kind → String
  | Kind.ReadFile => "source"
  | Kind.SMTQuery => "smt-query"

/-- The filesystem, observed only through file contents: a map from path to
content (`none` when the file does not exist). -/
def Fs : Type := String → Option String

/-- Behavior of the OS and process environment during one `solve` call.
Each field gives the outcome of one OS interaction the code performs:

* `tempDir` — `boost::filesystem::temp_directory_path()`: either the
  resolved directory or the diagnostic of the exception it throws;
* `openOk` — whether `boost::filesystem::ofstream(queryFileName)` opens and
  writes successfully; an ofstream failure only sets the stream's failbit
  and raises no exception, so on failure the write is silently lost;
* `searchPath` — `boost::process::search_path`: binary name to found path;
* `spawnExc` — diagnostic of the exception thrown by the
  `boost::process::child` constructor, if spawning fails;
* `outputLines` — the lines `std::getline(pipe, line)` yields, in order,
  i.e. the standard output the child process emits;
* `runningChecks` — for how many loop-condition evaluations
  `eld.running()` still reports the child as alive; afterwards the child
  is observed as exited;
* `waitExc` — diagnostic of the exception thrown by `eld.wait()`, if any. -/
structure ProcEnv where
  tempDir : Except String String
  openOk : Bool
  searchPath : String → Option String
  spawnExc : Option String
  outputLines : List String
  runningChecks : Nat
  waitExc : Option String

/-- Class `SMTSolverCommand`: the solver backend, holding the configuration
string its constructor stores in `m_solverCmd`. -/
structure SMTSolverCommand where
  m_solverCmd : String

/-- The read loop of `SMTSolverCommand::solve`:
`while (eld.running() && std::getline(pipe, line)) if (!line.empty())
data.push_back(line);`. The loop condition first asks whether the child is
still running ( `n` checks remain) and only then reads a line; lines still
buffered when the child is observed exited are never read. -/
def collectLines : Nat → List String → List String
  | 0, _ => []
  | _ + 1, [] => []
  | n + 1, l :: ls => if l = "" then collectLines n ls else l :: collectLines n ls

/-- Everything a `solve` call can be observed to do. `spawnedWith` is
`some c` when a child process was spawned and `c` was the content of the
query file at spawn time (the content the child reads back); it is `none`
when no child process was spawned. -/
structure SolveOut where
  result : Result
  fs : Fs
  spawnedWith : Option (Option String)

/-- The body of the `try` block of `SMTSolverCommand::solve`, translated
statement by statement. An exception is an `Except.error` carrying the
diagnostic text together with the filesystem and the spawn observation at
the throw point (an exception from `eld.wait()` is raised after a child
process has already run). -/
def solveBody (_cmd : SMTSolverCommand) (kind query : String) (env : ProcEnv)
    (fs : Fs) :
    Except (String × Fs × Option (Option String))
      (Result × Fs × Option (Option String)) :=
  if kind ≠ kindString Kind.SMTQuery then
    Except.error ("SMTQuery callback used as callback kind " ++ kind, fs, none)
  else
    match env.tempDir with
    | Except.error d => Except.error (d, fs, none)
    | Except.ok tempDir =>
      let queryFileName := tempDir ++ "/query.smt2"
      let fs1 : Fs :=
        if env.openOk then
          fun p => if p = queryFileName then some query else fs p
        else fs
      match env.searchPath "eld" with
      | none => Except.ok ({ success := false, data := "Eldarica binary not found." }, fs1, none)
      | some _eldBin =>
        match env.spawnExc with
        | some d => Except.error (d, fs1, none)
        | none =>
          let spawned := fs1 queryFileName
          let data := collectLines env.runningChecks env.outputLines
          match env.waitExc with
          | some d => Except.error (d, fs1, some spawned)
          | none =>
            Except.ok ({ success := true, data := String.intercalate "\n" data },
              fs1, some spawned)

/-- Function `SMTSolverCommand::solve`: runs the body and, as the `catch (...)`
clause does, converts any exception into a failed `Result` whose message
appends the diagnostic text to a fixed prefix. -/
def solve (cmd : SMTSolverCommand) (kind query : String) (env : ProcEnv)
    (fs : Fs) : SolveOut :=
  match solveBody cmd kind query env fs with
  | Except.ok (r, fs1, sp) => { result := r, fs := fs1, spawnedWith := sp }
  | Except.error (d, fs1, sp) =>
    { result := { success := false,
                  data := "Unknown exception in SMTQuery callback: " ++ d }
      fs := fs1
      spawnedWith := sp }

/-- Class `UniversalCallback` from UniversalCallback.h: owns one file-reading
backend and one solver backend. The `FileReader` is an external collaborator
consumed only through its `readFile(kind, path) -> Result` contract, so it
is modelled as that function. -/
structure UniversalCallback where
  m_fileReader : String → String → Result
  m_solver : SMTSolverCommand

/-- Modelled from the spec: `SMTSolverCommand::solver()` (declared in
SMTSolverCommand.h, which is not part of the sources here) hands the
dispatcher the solver backend's solve operation, whose result the
dispatcher returns unmodified. -/
def SMTSolverCommand.solver (cmd : SMTSolverCommand) :
    String → String → ProcEnv → Fs → SolveOut :=
  fun kind query env fs => solve cmd kind query env fs

/-- The lambda returned by `UniversalCallback::callback`. The dispatcher has
no `try`/`catch`, so the `solAssert(false, "Unknown callback kind.")` on an
unrecognized kind escapes to the caller: that outcome is the `Except.error`
case, while a returned `Result` is the `Except.ok` case. -/
def callback (u : UniversalCallback) (kind payload : String) (env : ProcEnv)
    (fs : Fs) : Except String Result :=
  if kind = kindString Kind.ReadFile then
    Except.ok (u.m_fileReader kind payload)
  else if kind = kindString Kind.SMTQuery then
    Except.ok (u.m_solver.solver kind payload env fs).result
  else
    Except.error "Unknown callback kind."

/-! ### Concrete inputs used by counterexamples and witnesses -/

/-- An empty filesystem. -/
def fs0 : Fs := fun _ => none

/-- A benign environment: the temp directory resolves to `/tmp`, the query
file opens, the solver binary is found, the child spawns, emits the given
lines and is observed running for the given number of loop checks. -/
def envRun (lines : List String) (checks : Nat) : ProcEnv :=
  { tempDir := Except.ok "/tmp"
    openOk := true
    searchPath := fun b => if b = "eld" then some "/usr/bin/eld" else none
    spawnExc := none
    outputLines := lines
    runningChecks := checks
    waitExc := none }

/-! ### Helper lemmas -/

/-- When the child is observed running for at least as many loop-condition
checks as it emits lines, the read loop keeps exactly the non-empty lines,
in order. -/
lemma collectLines_eq_filter (ls : List String) :
    ∀ n, ls.length ≤ n → collectLines n ls = ls.filter (fun l => l ≠ "") := by
  induction ls with
  | nil =>
    intro n _
    cases n <;> rfl
  | cons l ls ih =>
    intro n hn
    cases n with
    | zero => simp at hn
    | succ m =>
      simp only [List.length_cons, Nat.succ_le_succ_iff] at hn
      by_cases h : l = ""
      · simp [collectLines, h, ih m hn]
      · simp [collectLines, h, ih m hn]

/-! ### Claims -/

/-- C1: for every kind, query, filesystem and process-environment behavior,
`solve` returns a `Result` (it is a total function into `SolveOut`), and
whenever an exception is raised anywhere inside the operation — i.e. the
body ends in `Except.error` with diagnostic `d` — the returned `Result`
has `success = false` and its message includes `d`. -/
theorem solve_catches_every_exception (cmd : SMTSolverCommand)
    (kind query : String) (env : ProcEnv) (fs fs1 : Fs) (d : String)
    (sp : Option (Option String))
    (h : solveBody cmd kind query env fs = Except.error (d, fs1, sp)) :
    (solve cmd kind query env fs).result.success = false ∧
      (solve cmd kind query env fs).result.data =
        "Unknown exception in SMTQuery callback: " ++ d := by
  simp [solve, h]

/-- Environment in which resolving the temporary directory throws. -/
def envC1 : ProcEnv := { envRun [] 5 with tempDir := Except.error "boom" }

/-- Witness for C1: with a temp-directory exception carrying diagnostic
"boom", `solve` returns a failed `Result` whose message includes "boom". -/
theorem solve_catches_every_exception_witness :
    (solve ⟨"x"⟩ "smt-query" "q" envC1 fs0).result.success = false ∧
      (solve ⟨"x"⟩ "smt-query" "q" envC1 fs0).result.data =
        "Unknown exception in SMTQuery callback: boom" :=
  solve_catches_every_exception ⟨"x"⟩ "smt-query" "q" envC1 fs0 fs0 "boom"
    none rfl

/-- C2 fails on the code: the read loop's condition asks `eld.running()`
before `std::getline`, so when the child has already exited at the first
check, lines it emitted that are still buffered in the pipe are never
read. Here the child emitted the line "sat" but the collected data is
empty. -/
theorem solve_drops_output_buffered_at_exit :
    (envRun ["sat"] 0).outputLines = ["sat"] ∧
      (solve ⟨"x"⟩ "smt-query" "q" (envRun ["sat"] 0) fs0).result =
        { success := true, data := "" } :=
  ⟨rfl, by decide⟩

/-- C3 fails on the code: the `solAssert` for a wrong kind sits inside the
`try` block, so its exception is caught by the `catch (...)` clause and
`solve` returns a `Result` to its caller instead of faulting. -/
theorem solve_wrong_kind_counterexample :
    (solve ⟨"x"⟩ "unknown-kind" "q" (envRun [] 5) fs0).result =
      { success := false,
        data := "Unknown exception in SMTQuery callback: SMTQuery callback used as callback kind unknown-kind" } := by
  decide

/-- C3 amended: `solve` called with a kind not equal to the `SMTQuery` id
raises an internal assertion, but the operation's outer catch converts it
into a returned failed `Result` whose message includes the assertion
diagnostic; no fault escapes to the caller and no process is spawned. -/
theorem solve_wrong_kind_assert_caught (cmd : SMTSolverCommand)
    (kind query : String) (env : ProcEnv) (fs : Fs)
    (h : kind ≠ kindString Kind.SMTQuery) :
    (solve cmd kind query env fs).result =
      { success := false,
        data := "Unknown exception in SMTQuery callback: " ++
          ("SMTQuery callback used as callback kind " ++ kind) } ∧
      (solve cmd kind query env fs).spawnedWith = none := by
  unfold solve solveBody
  rw [if_pos h]
  exact ⟨rfl, rfl⟩

/-- Witness for C3's amended claim at the kind "unknown-kind". -/
theorem solve_wrong_kind_assert_caught_witness :
    ("unknown-kind" ≠ kindString Kind.SMTQuery) ∧
      ((solve ⟨"x"⟩ "unknown-kind" "q" (envRun [] 5) fs0).result =
        { success := false,
          data := "Unknown exception in SMTQuery callback: " ++
            ("SMTQuery callback used as callback kind " ++ "unknown-kind") } ∧
      (solve ⟨"x"⟩ "unknown-kind" "q" (envRun [] 5) fs0).spawnedWith = none) :=
  ⟨by decide,
   solve_wrong_kind_assert_caught ⟨"x"⟩ "unknown-kind" "q" (envRun [] 5) fs0
     (by decide)⟩

/-- Environment in which the query file fails to open (for instance the
temp directory exists but is unwritable): an ofstream failure sets the
failbit and raises no exception. -/
def envC4 : ProcEnv := { envRun [] 5 with openOk := false }

/-- C4 fails on the code: when opening/writing the temporary query file
fails, the ofstream only sets its failbit — no exception is raised and the
code never checks the stream state — so `solve` goes on to locate the
binary and spawn the child (here on a query file that was never written,
`spawnedWith = some none`), and returns `success = true`. -/
theorem solve_spawns_despite_write_failure :
    (solve ⟨"x"⟩ "smt-query" "q" envC4 fs0).result =
      { success := true, data := "" } ∧
      (solve ⟨"x"⟩ "smt-query" "q" envC4 fs0).spawnedWith = some none := by
  decide

/-- C5: when no solver binary is discoverable on the search path (and the
operation reaches that step, i.e. the temp directory resolves), `solve`
returns the fixed binary-not-found failure and spawns no child process. -/
theorem solve_binary_not_found (cmd : SMTSolverCommand) (query : String)
    (env : ProcEnv) (fs : Fs) (dir : String)
    (h1 : env.tempDir = Except.ok dir)
    (h2 : env.searchPath "eld" = none) :
    (solve cmd (kindString Kind.SMTQuery) query env fs).result =
      { success := false, data := "Eldarica binary not found." } ∧
      (solve cmd (kindString Kind.SMTQuery) query env fs).spawnedWith = none := by
  unfold solve solveBody
  rw [if_neg (fun hc => hc rfl), h1, h2]
  exact ⟨rfl, rfl⟩

/-- Environment in which the executable search finds nothing. -/
def envC5 : ProcEnv := { envRun [] 5 with searchPath := fun _ => none }

/-- Witness for C5 in an environment where the search path holds no
binary. -/
theorem solve_binary_not_found_witness :
    envC5.tempDir = Except.ok "/tmp" ∧ envC5.searchPath "eld" = none ∧
      ((solve ⟨"x"⟩ (kindString Kind.SMTQuery) "q" envC5 fs0).result =
        { success := false, data := "Eldarica binary not found." } ∧
      (solve ⟨"x"⟩ (kindString Kind.SMTQuery) "q" envC5 fs0).spawnedWith = none) :=
  ⟨rfl, rfl, solve_binary_not_found ⟨"x"⟩ "q" envC5 fs0 "/tmp" rfl rfl⟩

/-- C6 fails on the code: the claim quantifies over every sequence of
emitted lines, but when the child is observed exited after one loop check,
the second emitted line "b" is dropped and the data is "a" instead of the
full join of the non-empty lines. -/
theorem solve_output_join_counterexample :
    (envRun ["a", "b"] 1).outputLines = ["a", "b"] ∧
      (solve ⟨"x"⟩ "smt-query" "q" (envRun ["a", "b"] 1) fs0).result =
        { success := true, data := "a" } :=
  ⟨rfl, by decide⟩

/-- C6 amended: provided the child is observed running for at least as many
loop checks as it emits lines (so the loop exhausts the stream), `solve`
returns success with data equal to exactly the non-empty emitted lines, in
order, joined by newlines, blank lines dropped; in particular with zero
output the data is empty. -/
theorem solve_joins_nonempty_output_lines (cmd : SMTSolverCommand)
    (query : String) (env : ProcEnv) (fs : Fs) (dir bin : String)
    (h1 : env.tempDir = Except.ok dir)
    (h2 : env.searchPath "eld" = some bin)
    (h3 : env.spawnExc = none) (h4 : env.waitExc = none)
    (h5 : env.outputLines.length ≤ env.runningChecks) :
    (solve cmd (kindString Kind.SMTQuery) query env fs).result =
      { success := true,
        data := String.intercalate "\n"
          (env.outputLines.filter (fun l => l ≠ "")) } := by
  unfold solve solveBody
  rw [if_neg (fun hc => hc rfl), h1, h2, h3, h4, collectLines_eq_filter _ _ h5]

/-- Environment whose child emits "a", a blank line, then "b", and stays
alive throughout the read. -/
def envC6 : ProcEnv := envRun ["a", "", "b"] 9

/-- Witness for C6's amended claim: output "a", "", "b" read while the
child is alive yields data "a\nb". -/
theorem solve_joins_nonempty_output_lines_witness :
    envC6.tempDir = Except.ok "/tmp" ∧
      envC6.searchPath "eld" = some "/usr/bin/eld" ∧
      envC6.spawnExc = none ∧ envC6.waitExc = none ∧
      envC6.outputLines.length ≤ envC6.runningChecks ∧
      (solve ⟨"x"⟩ (kindString Kind.SMTQuery) "q" envC6 fs0).result =
        { success := true, data := "a\nb" } := by
  refine ⟨rfl, rfl, rfl, rfl, by decide, ?_⟩
  have h := solve_joins_nonempty_output_lines ⟨"x"⟩ "q" envC6 fs0 "/tmp"
    "/usr/bin/eld" rfl rfl rfl rfl (by decide)
  simpa using h

/-- C7: `dispatch` with the `ReadFile` kind returns exactly the File
Backend's result for `(kind, payload)`, and with the `SMTQuery` kind
returns exactly the Solver Backend's solve result, each unchanged; the
right-hand sides mention only the matching backend, so no other backend is
consulted. -/
theorem callback_routes_to_matching_backend (u : UniversalCallback)
    (payload : String) (env : ProcEnv) (fs : Fs) :
    callback u (kindString Kind.ReadFile) payload env fs =
      Except.ok (u.m_fileReader (kindString Kind.ReadFile) payload) ∧
      callback u (kindString Kind.SMTQuery) payload env fs =
        Except.ok ((solve u.m_solver (kindString Kind.SMTQuery) payload env
          fs).result) := by
  constructor
  · rfl
  · unfold callback
    rw [if_neg (by decide), if_pos rfl]
    rfl

/-- C8: `dispatch` with a kind that is neither the `ReadFile` id nor the
`SMTQuery` id hits the unguarded `solAssert` and faults — the assertion
escapes the dispatch path instead of a `Result` being returned. -/
theorem callback_unknown_kind_faults (u : UniversalCallback)
    (kind payload : String) (env : ProcEnv) (fs : Fs)
    (h1 : kind ≠ kindString Kind.ReadFile)
    (h2 : kind ≠ kindString Kind.SMTQuery) :
    callback u kind payload env fs = Except.error "Unknown callback kind." := by
  unfold callback
  rw [if_neg h1, if_neg h2]

/-- A dispatcher over a trivial file backend, for the C8 witness. -/
def ucb0 : UniversalCallback :=
  { m_fileReader := fun _ _ => { success := true, data := "" }
    m_solver := ⟨"x"⟩ }

/-- Witness for C8 at the unrecognized kind "bogus". -/
theorem callback_unknown_kind_faults_witness :
    ("bogus" ≠ kindString Kind.ReadFile) ∧
      ("bogus" ≠ kindString Kind.SMTQuery) ∧
      callback ucb0 "bogus" "p" (envRun [] 5) fs0 =
        Except.error "Unknown callback kind." :=
  ⟨by decide, by decide,
   callback_unknown_kind_faults ucb0 "bogus" "p" (envRun [] 5) fs0
     (by decide) (by decide)⟩

/-- C9: whenever the query file opens (and the call proceeds to a spawn),
each `solve` call rewrites the fixed file `<temp dir>/query.smt2` with the
full query text before spawning, so of two sequential calls with different
queries each spawned process reads back exactly its own call's query. -/
theorem solve_rewrites_query_file_per_call (cmd : SMTSolverCommand)
    (q1 q2 : String) (env : ProcEnv) (fs : Fs) (dir bin : String)
    (h1 : env.tempDir = Except.ok dir) (h2 : env.openOk = true)
    (h3 : env.searchPath "eld" = some bin) (h4 : env.spawnExc = none)
    (h5 : env.waitExc = none) :
    (solve cmd (kindString Kind.SMTQuery) q1 env fs).spawnedWith =
        some (some q1) ∧
      (solve cmd (kindString Kind.SMTQuery) q1 env fs).fs
        (dir ++ "/query.smt2") = some q1 ∧
      (solve cmd (kindString Kind.SMTQuery) q2 env
          (solve cmd (kindString Kind.SMTQuery) q1 env fs).fs).spawnedWith =
        some (some q2) ∧
      (solve cmd (kindString Kind.SMTQuery) q2 env
          (solve cmd (kindString Kind.SMTQuery) q1 env fs).fs).fs
        (dir ++ "/query.smt2") = some q2 := by
  unfold solve solveBody
  rw [if_neg (fun hc => hc rfl), h1, h2, h3, h4, h5]
  simp

/-- Witness for C9: two sequential calls with queries "q1" and "q2" in a
benign environment each spawn on their own query content. -/
theorem solve_rewrites_query_file_per_call_witness :
    (envRun [] 5).tempDir = Except.ok "/tmp" ∧
      (envRun [] 5).openOk = true ∧
      (envRun [] 5).searchPath "eld" = some "/usr/bin/eld" ∧
      (envRun [] 5).spawnExc = none ∧ (envRun [] 5).waitExc = none ∧
      ((solve ⟨"x"⟩ (kindString Kind.SMTQuery) "q1" (envRun [] 5)
          fs0).spawnedWith = some (some "q1") ∧
        (solve ⟨"x"⟩ (kindString Kind.SMTQuery) "q1" (envRun [] 5) fs0).fs
          ("/tmp" ++ "/query.smt2") = some "q1" ∧
        (solve ⟨"x"⟩ (kindString Kind.SMTQuery) "q2" (envRun [] 5)
            (solve ⟨"x"⟩ (kindString Kind.SMTQuery) "q1" (envRun [] 5)
              fs0).fs).spawnedWith = some (some "q2") ∧
        (solve ⟨"x"⟩ (kindString Kind.SMTQuery) "q2" (envRun [] 5)
            (solve ⟨"x"⟩ (kindString Kind.SMTQuery) "q1" (envRun [] 5)
              fs0).fs).fs ("/tmp" ++ "/query.smt2") = some "q2") := by
  refine ⟨rfl, rfl, rfl, rfl, rfl, ?_⟩
  exact solve_rewrites_query_file_per_call ⟨"x"⟩ "q1" "q2" (envRun [] 5) fs0
    "/tmp" "/usr/bin/eld" rfl rfl rfl rfl rfl

/-- C10: the `Result` of `solve` — indeed its whole observable outcome —
is independent of the solver-command configuration string the backend was
constructed with: `m_solverCmd` is stored by the constructor and never
consulted by `solve`, which always searches for the fixed binary name. -/
theorem solve_independent_of_solver_cmd (c1 c2 kind query : String)
    (env : ProcEnv) (fs : Fs) :
    solve ⟨c1⟩ kind query env fs = solve ⟨c2⟩ kind query env fs := rfl

end Solidity
